import Mathlib

/-!
Verification of the MicroGuide core: query-intent parsing, relevance
ranking, search orchestration, the TTL query cache, the delete protocol,
and structured path generation. Each definition is a shallow embedding of
the corresponding TypeScript in `src/lib` (aiSearch.ts, database.ts,
pathGenerator.ts); JavaScript numbers are modelled as rationals, machine
strings as Lean strings, and asynchronous fallible calls as explicit
`Except` parameters.
-/

namespace MicroGuide

/-! ## JavaScript string primitives -/

/-- JS `String.prototype.toLowerCase` (ASCII-faithful). -/
def jsToLower (s : String) : String := ⟨s.data.map Char.toLower⟩

/-- Substring test on character lists: `needle` occurs contiguously in the
list. Mirrors JS `String.prototype.includes`. -/
def listIncludes (needle : List Char) : List Char → Bool
  | [] => needle.isPrefixOf []
  | c :: rest => needle.isPrefixOf (c :: rest) || listIncludes needle rest

/-- JS `hay.includes(needle)`. -/
def strIncludes (hay needle : String) : Bool :=
  listIncludes needle.toList hay.toList

/-! ## aiSearch.ts: query intent (`parseQueryIntent`, lines 65-124) -/

structure QueryIntent where
  topic : String
  difficulty : String
  keywords : List String
  estimatedDuration : ℚ
  confidence : ℚ
  learningType : String
  deriving Repr, DecidableEq

/-- The `topicMappings` map of `AISearchEngine.initializeTopicMappings`
(aiSearch.ts lines 46-62), in insertion order. -/
def topicMappings : List (String × String) :=
  [ ("web development", "web-development")
  , ("frontend", "web-development")
  , ("backend", "web-development")
  , ("react", "web-development")
  , ("javascript", "web-development")
  , ("python", "data-science")
  , ("machine learning", "ai-ml")
  , ("ai", "ai-ml")
  , ("blockchain", "web3")
  , ("crypto", "web3")
  , ("ui/ux", "design")
  , ("design", "design")
  , ("marketing", "business")
  , ("entrepreneurship", "business") ]

/-- The stop-word list of `parseQueryIntent` (aiSearch.ts line 113). -/
def stopWords : List String :=
  ["learn", "how", "to", "the", "a", "an", "and", "or", "but", "in", "on",
   "at", "for", "with"]

/-- `AISearchEngine.parseQueryIntent` (aiSearch.ts lines 65-124). The
float literals 0.5, 0.8, 0.1 are modelled as exact rationals; the final
confidence is `Math.min(confidence, 1)`. -/
def parseQueryIntent (query : String) : QueryIntent :=
  let lowerQuery := jsToLower query
  let words := lowerQuery.split (fun c => c.isWhitespace)
  let topicHit := topicMappings.find? (fun kv => strIncludes lowerQuery kv.1)
  let topic := match topicHit with | some kv => kv.2 | none => ""
  let confidence0 : ℚ := match topicHit with | some _ => 8/10 | none => 5/10
  let advHit := strIncludes lowerQuery "advanced" || strIncludes lowerQuery "expert"
  let intHit := strIncludes lowerQuery "intermediate" || strIncludes lowerQuery "medium"
  let begHit := strIncludes lowerQuery "beginner" || strIncludes lowerQuery "basic" ||
      strIncludes lowerQuery "intro"
  let diffConf : String × ℚ :=
    if advHit then ("advanced", confidence0 + 1/10)
    else if intHit then ("intermediate", confidence0 + 1/10)
    else if begHit then ("beginner", confidence0 + 1/10)
    else ("beginner", confidence0)
  let estimatedDuration : ℚ :=
    if strIncludes lowerQuery "quick" || strIncludes lowerQuery "crash course" then 5
    else if strIncludes lowerQuery "comprehensive" || strIncludes lowerQuery "complete" then 30
    else if strIncludes lowerQuery "deep" || strIncludes lowerQuery "master" then 50
    else 10
  let learningType :=
    if strIncludes lowerQuery "hands-on" || strIncludes lowerQuery "project" ||
        strIncludes lowerQuery "build" then "practical"
    else if strIncludes lowerQuery "theory" || strIncludes lowerQuery "concept" ||
        strIncludes lowerQuery "understand" then "theoretical"
    else "mixed"
  let keywords := words.filter (fun w => !(stopWords.contains w) && w.length > 2)
  { topic := topic
  , difficulty := diffConf.1
  , keywords := keywords
  , estimatedDuration := estimatedDuration
  , confidence := min diffConf.2 1
  , learningType := learningType }

/-! ## supabase.ts: the LearningPath row type (lines 26-40) -/

structure LearningPath where
  id : String
  title : String
  description : String
  topic : String
  difficulty_level : String
  estimated_duration : ℚ
  created_by : String
  is_public : Bool
  total_nodes : ℚ
  completion_rate : ℚ
  tags : List String
  created_at : String
  updated_at : String
  deriving Repr, DecidableEq

/-! ## aiSearch.ts: relevance scoring (`calculateRelevanceScore`, lines 264-306) -/

/-- `AISearchEngine.calculateRelevanceScore` (aiSearch.ts lines 264-306).
The `forEach` accumulations are folds; `path.tags` is always a (possibly
empty) list, so the truthiness guard on it is always taken. -/
def calculateRelevanceScore (path : LearningPath) (intent : QueryIntent)
    (query : String) : ℚ :=
  let lowerQuery := jsToLower query
  let lowerTitle := jsToLower path.title
  let lowerDescription := jsToLower path.description
  let s1 : ℚ := if strIncludes lowerTitle lowerQuery then 0 + 10 else 0
  let s2 := intent.keywords.foldl
    (fun s keyword => if strIncludes lowerTitle keyword then s + 5 else s) s1
  let s3 := if strIncludes lowerDescription lowerQuery then s2 + 5 else s2
  let s4 := intent.keywords.foldl
    (fun s keyword => if strIncludes lowerDescription keyword then s + 2 else s) s3
  let s5 := if path.topic = intent.topic then s4 + 8 else s4
  let s6 := if path.difficulty_level = intent.difficulty then s5 + 3 else s5
  let durationDiff := |path.estimated_duration - intent.estimatedDuration|
  let s7 := s6 + max 0 (5 - durationDiff / 10)
  let s8 := s7 + path.completion_rate * 2
  let s9 := s8 + min (path.total_nodes / 10) 3
  intent.keywords.foldl
    (fun s keyword =>
      if path.tags.any (fun tag => strIncludes (jsToLower tag) keyword) then s + 1 else s) s9

/-- The ranking formula exactly as the spec words it (spec §4.3): a
weighted sum of the individual factors. Used to check
`calculateRelevanceScore` against the spec. -/
def specRelevanceScore (path : LearningPath) (intent : QueryIntent)
    (query : String) : ℚ :=
  (if strIncludes (jsToLower path.title) (jsToLower query) then 10 else 0)
  + 5 * ((intent.keywords.filter (fun k => strIncludes (jsToLower path.title) k)).length : ℚ)
  + (if strIncludes (jsToLower path.description) (jsToLower query) then 5 else 0)
  + 2 * ((intent.keywords.filter (fun k => strIncludes (jsToLower path.description) k)).length : ℚ)
  + (if path.topic = intent.topic then 8 else 0)
  + (if path.difficulty_level = intent.difficulty then 3 else 0)
  + max 0 (5 - |path.estimated_duration - intent.estimatedDuration| / 10)
  + 2 * path.completion_rate
  + min (path.total_nodes / 10) 3
  + 1 * ((intent.keywords.filter
      (fun k => path.tags.any (fun tag => strIncludes (jsToLower tag) k))).length : ℚ)

/-- The abstract scoring factors of `calculateRelevanceScore`: one field
per additive term of the weighted sum. -/
structure ScoreFactors where
  titleQueryHit : Bool
  titleKeywordHits : ℕ
  descQueryHit : Bool
  descKeywordHits : ℕ
  topicHit : Bool
  difficultyHit : Bool
  durationDiff : ℚ
  completionRate : ℚ
  totalNodes : ℚ
  tagKeywordHits : ℕ
  deriving Repr, DecidableEq

/-- The score as a function of the abstract factors alone. -/
def scoreOfFactors (f : ScoreFactors) : ℚ :=
  (if f.titleQueryHit then 10 else 0)
  + 5 * (f.titleKeywordHits : ℚ)
  + (if f.descQueryHit then 5 else 0)
  + 2 * (f.descKeywordHits : ℚ)
  + (if f.topicHit then 8 else 0)
  + (if f.difficultyHit then 3 else 0)
  + max 0 (5 - f.durationDiff / 10)
  + f.completionRate * 2
  + min (f.totalNodes / 10) 3
  + (f.tagKeywordHits : ℚ)

/-- The factors `calculateRelevanceScore` extracts from a concrete
(path, intent, raw query) triple. -/
def factorsOf (path : LearningPath) (intent : QueryIntent) (query : String) :
    ScoreFactors :=
  let lowerQuery := jsToLower query
  let lowerTitle := jsToLower path.title
  let lowerDescription := jsToLower path.description
  { titleQueryHit := strIncludes lowerTitle lowerQuery
  , titleKeywordHits := (intent.keywords.filter (fun k => strIncludes lowerTitle k)).length
  , descQueryHit := strIncludes lowerDescription lowerQuery
  , descKeywordHits := (intent.keywords.filter (fun k => strIncludes lowerDescription k)).length
  , topicHit := decide (path.topic = intent.topic)
  , difficultyHit := decide (path.difficulty_level = intent.difficulty)
  , durationDiff := |path.estimated_duration - intent.estimatedDuration|
  , completionRate := path.completion_rate
  , totalNodes := path.total_nodes
  , tagKeywordHits := (intent.keywords.filter
      (fun k => path.tags.any (fun tag => strIncludes (jsToLower tag) k))).length }

/-! ## aiSearch.ts: search orchestration (`intelligentSearch`, lines 127-222) -/

structure DurationRange where
  min : ℚ
  max : ℚ
  deriving Repr, DecidableEq

/-- `SearchFilters` (aiSearch.ts lines 5-11). -/
structure SearchFilters where
  topic : Option String
  difficulty : Option String
  duration : Option DurationRange
  tags : Option (List String)
  isPublic : Option Bool
  deriving Repr, DecidableEq

/-- `AISearchResult` (aiSearch.ts lines 13-19). -/
structure AISearchResult where
  paths : List LearningPath
  suggestedTopics : List String
  estimatedDuration : ℚ
  difficulty : String
  confidence : ℚ
  deriving Repr, DecidableEq

/-- The shape returned by `openaiService.enhanceSearchQuery`
(openaiService.ts lines 186-191). -/
structure EnhancedQuery where
  enhancedQuery : String
  suggestedTopics : List String
  difficulty : String
  estimatedDuration : ℚ
  deriving Repr, DecidableEq

/-- JS `a || b` on strings: the empty string is falsy. -/
def jsOrStr (a b : String) : String := if a = "" then b else a

/-- `AISearchEngine.mapTopicFromAI` (aiSearch.ts lines 225-251). -/
def mapTopicFromAI (aiTopic : String) : String :=
  if aiTopic = "" then ""
  else
    let mapping : List (String × String) :=
      [ ("web development", "web-development")
      , ("frontend", "web-development")
      , ("backend", "web-development")
      , ("data science", "data-science")
      , ("machine learning", "ai-ml")
      , ("artificial intelligence", "ai-ml")
      , ("blockchain", "web3")
      , ("cryptocurrency", "web3")
      , ("design", "design")
      , ("ui/ux", "design")
      , ("business", "business")
      , ("marketing", "business") ]
    match mapping.find? (fun kv => strIncludes (jsToLower aiTopic) kv.1) with
    | some kv => kv.2
    | none => ""

/-- The AI enhancement step of `intelligentSearch` (aiSearch.ts lines
139-152): absent when the completion service is not configured, swallowed
on failure, an override of topic/difficulty/duration and a confidence
raise on success. -/
def applyEnhancement (intent0 : QueryIntent)
    (enhance : Option (Except String EnhancedQuery)) : QueryIntent :=
  match enhance with
  | none => intent0
  | some (.error _) => intent0
  | some (.ok enh) =>
    { intent0 with
      topic := jsOrStr (mapTopicFromAI (enh.suggestedTopics.headD "")) intent0.topic
      difficulty := enh.difficulty
      estimatedDuration := enh.estimatedDuration
      confidence := max intent0.confidence (8/10) }

/-- One filter of the remote query `intelligentSearch` builds
(aiSearch.ts lines 155-182). -/
inductive SupaFilter where
  | eqIsPublic (value : Bool)
  | orTopicEqOrTagsContains (topic : String)
  | eqDifficultyLevel (value : String)
  | gteEstimatedDuration (value : ℚ)
  | lteEstimatedDuration (value : ℚ)
  | textSearchTitleDescription (terms : String)
  deriving Repr, DecidableEq

/-- The filter list of the remote query `intelligentSearch` builds
(aiSearch.ts lines 155-182): visibility, then conditionally topic,
difficulty, duration range and keyword text search. -/
def buildSearchFilters (intent : QueryIntent) (filters : Option SearchFilters) :
    List SupaFilter :=
  let q0 := [SupaFilter.eqIsPublic true]
  let q1 := if intent.topic ≠ "" then q0 ++ [SupaFilter.orTopicEqOrTagsContains intent.topic] else q0
  let q2 := if intent.difficulty ≠ "" then q1 ++ [SupaFilter.eqDifficultyLevel intent.difficulty] else q1
  let q3 := match filters with
    | some f =>
      match f.duration with
      | some d => q2 ++ [SupaFilter.gteEstimatedDuration d.min, SupaFilter.lteEstimatedDuration d.max]
      | none => q2
    | none => q2
  if intent.keywords.length > 0 then
    q3 ++ [SupaFilter.textSearchTitleDescription (String.intercalate " | " intent.keywords)]
  else q3

/-- Store-side meaning of one filter; the full-text predicate is left
abstract as `textMatch`. -/
def rowMatchesFilter (textMatch : String → LearningPath → Bool) :
    SupaFilter → LearningPath → Bool
  | .eqIsPublic b, p => p.is_public == b
  | .orTopicEqOrTagsContains t, p => (p.topic == t) || p.tags.contains t
  | .eqDifficultyLevel d, p => p.difficulty_level == d
  | .gteEstimatedDuration v, p => decide (v ≤ p.estimated_duration)
  | .lteEstimatedDuration v, p => decide (p.estimated_duration ≤ v)
  | .textSearchTitleDescription terms, p => textMatch terms p

/-- The rows a store holding `store` can return for the filter list: those
satisfying every filter. -/
def runStoreQuery (textMatch : String → LearningPath → Bool)
    (store : List LearningPath) (fs : List SupaFilter) : List LearningPath :=
  store.filter (fun p => fs.all (fun f => rowMatchesFilter textMatch f p))

/-- JS `Set.prototype.add`: insertion-ordered, first occurrence kept. -/
def addUnique (l : List String) (x : String) : List String :=
  if l.contains x then l else l ++ [x]

/-- `AISearchEngine.generateTopicSuggestions` (aiSearch.ts lines 309-341);
the popular-topics read is passed in explicitly and its failure swallowed
by the internal try/catch. -/
def generateTopicSuggestions (query : String) (intent : QueryIntent)
    (popularTopics : Except String (List String)) : List String :=
  let s1 := if intent.topic ≠ "" then addUnique [] intent.topic else []
  let s2 := intent.keywords.foldl (fun acc keyword =>
    topicMappings.foldl (fun acc2 kv =>
      if strIncludes kv.1 keyword || strIncludes keyword ((kv.1.splitOn " ").headD "")
      then addUnique acc2 kv.2 else acc2) acc) s1
  let s3 := match popularTopics with
    | .ok ts => ts.foldl addUnique s2
    | .error _ => s2
  s3.take 6

/-- `AISearchEngine.rankSearchResults` (aiSearch.ts lines 254-261): attach
a relevance score to each path and sort descending by it (stable). -/
def rankSearchResults (paths : List LearningPath) (intent : QueryIntent)
    (originalQuery : String) : List (LearningPath × ℚ) :=
  (paths.map (fun path => (path, calculateRelevanceScore path intent originalQuery))).mergeSort
    (fun a b => decide (b.2 ≤ a.2))

/-- The degraded result of the catch branch of `intelligentSearch`
(aiSearch.ts lines 212-221). -/
def emptySearchResult : AISearchResult :=
  { paths := []
  , suggestedTopics := []
  , estimatedDuration := 10
  , difficulty := "beginner"
  , confidence := 0 }

/-- `AISearchEngine.intelligentSearch` (aiSearch.ts lines 127-222). The
cache lookup, the optional AI enhancement, the remote read and the
popular-topics read are explicit parameters; a failing remote read lands
in the catch branch, which returns `emptySearchResult`. -/
def intelligentSearch (query : String) (filters : Option SearchFilters)
    (cached : Option AISearchResult)
    (enhance : Option (Except String EnhancedQuery))
    (remoteRead : List SupaFilter → Except String (List LearningPath))
    (popularTopics : Except String (List String)) : AISearchResult :=
  match cached with
  | some r => r
  | none =>
    let intent := applyEnhancement (parseQueryIntent query) enhance
    match remoteRead (buildSearchFilters intent filters) with
    | .error _ => emptySearchResult
    | .ok paths =>
      { paths := (rankSearchResults paths intent query).map Prod.fst
      , suggestedTopics := generateTopicSuggestions query intent popularTopics
      , estimatedDuration := intent.estimatedDuration
      , difficulty := jsOrStr intent.difficulty "beginner"
      , confidence := intent.confidence }

/-! ## database.ts: the TTL query cache (lines 23-24, 96-134, 202-231) -/

/-- `DatabaseManager.CACHE_DURATION` (database.ts line 24): 5 minutes in
milliseconds. -/
def CACHE_DURATION : ℤ := 5 * 60 * 1000

/-- One entry of `DatabaseManager.queryCache` (database.ts line 23). -/
structure CacheEntry (α : Type) where
  data : α
  timestamp : ℤ
  deriving Repr, DecidableEq

/-- The cache-then-fetch read shared by `fetchPathWithNodes` (database.ts
lines 97-101, 127) and `getUserProgress` (lines 203-206, 224): serve the
cached payload when `now - cached.timestamp < CACHE_DURATION`, otherwise
refetch. Returns the payload served and whether it was a cache hit. -/
def readThroughCache {α : Type} (cached : Option (CacheEntry α)) (now : ℤ)
    (fetched : α) : α × Bool :=
  match cached with
  | some e => if now - e.timestamp < CACHE_DURATION then (e.data, true) else (fetched, false)
  | none => (fetched, false)

/-! ## database.ts: the delete protocol (`deletePath`, lines 398-458) -/

/-- A thrown JavaScript value: its message, and whether it is an `Error`
instance (the catch block of `deletePath` reads `error.message` only for
`Error` instances). -/
structure JsError where
  message : String
  isErrorInstance : Bool
  deriving Repr, DecidableEq

/-- The message of `new Error('Learning path not found or already
deleted')` (database.ts line 416). -/
def notFoundMessage : String := "Learning path not found or already deleted"

/-- The message of `new Error('You can only delete paths you created')`
(database.ts line 423). -/
def notAuthorizedMessage : String := "You can only delete paths you created"

/-- The catch block of `deletePath` (database.ts lines 452-457): every
failure is re-thrown with the operation context prefixed. -/
def wrapDeleteError (msg : String) : String := "Failed to delete learning path: " ++ msg

/-- `error instanceof Error ? error.message : 'Unknown deletion error'`
(database.ts line 455). -/
def jsErrorMessage (e : JsError) : String :=
  if e.isErrorInstance then e.message else "Unknown deletion error"

instance : DecidableEq (Except String Unit) := fun a b =>
  match a, b with
  | .ok (), .ok () => isTrue rfl
  | .ok (), .error _ => isFalse nofun
  | .error _, .ok () => isFalse nofun
  | .error x, .error y =>
    if h : x = y then isTrue (h ▸ rfl) else isFalse (fun hh => h (Except.error.inj hh))

/-- What a `deletePath` call leaves behind: the caller-visible result, the
store contents afterwards, and whether a delete was issued to the store. -/
structure DeleteOutcome where
  result : Except String Unit
  store : List LearningPath
  deleteIssued : Bool
  deriving Repr, DecidableEq

/-- `DatabaseManager.deletePath` (database.ts lines 398-458). The store is
a list of path rows; `storeDelete` is the store's response to the delete
statement. Fetch the row (`maybeSingle`: zero rows is a legitimate
outcome), fail NOT-FOUND when absent, fail NOT-AUTHORIZED when the
requester is not the stored owner, otherwise issue the delete; every
failure is wrapped by the catch block's context prefix. -/
def deletePath (store : List LearningPath) (storeDelete : Except JsError Unit)
    (pathId userId : String) : DeleteOutcome :=
  match store.find? (fun p => p.id == pathId) with
  | none =>
    { result := .error (wrapDeleteError notFoundMessage)
    , store := store
    , deleteIssued := false }
  | some path =>
    if path.created_by ≠ userId then
      { result := .error (wrapDeleteError notAuthorizedMessage)
      , store := store
      , deleteIssued := false }
    else
      match storeDelete with
      | .error e =>
        { result := .error (wrapDeleteError (jsErrorMessage e))
        , store := store
        , deleteIssued := true }
      | .ok _ =>
        { result := .ok ()
        , store := store.filter (fun p => !(p.id == pathId))
        , deleteIssued := true }

/-! ## pathGenerator.ts: data model (lines 5-50) -/

/-- `GeneratePathRequest` (pathGenerator.ts lines 5-12). -/
structure GeneratePathRequest where
  query : String
  userId : String
  difficulty : Option String
  duration : Option ℚ
  learningStyle : Option String
  goals : Option (List String)
  deriving Repr, DecidableEq

/-- `LearningResource` (pathGenerator.ts lines 24-32). -/
structure LearningResource where
  title : String
  description : String
  type : String
  url : Option String
  duration : ℚ
  platform : String
  difficulty : String
  deriving Repr, DecidableEq

/-- One module of a `TopicStructure` (pathGenerator.ts lines 41-49). -/
structure TopicModule where
  title : String
  description : String
  concepts : List String
  skills : List String
  resources : List LearningResource
  exercises : List String
  assessments : List String
  deriving Repr, DecidableEq

/-- `TopicStructure` (pathGenerator.ts lines 34-50). -/
structure TopicStructure where
  category : String
  subcategory : String
  learningType : String
  estimatedHours : ℚ
  prerequisites : List String
  outcomes : List String
  modules : List TopicModule
  deriving Repr, DecidableEq

/-- A node of a generated path: `Omit<LearningNode, 'id' | 'path_id' |
'created_at' | 'updated_at'>` (supabase.ts lines 42-55). -/
structure NodeData where
  title : String
  description : String
  content_type : String
  resource_url : Option String
  estimated_duration : ℚ
  order_index : ℕ
  prerequisites : List String
  is_required : Bool
  deriving Repr, DecidableEq

/-- `GeneratedPathStructure` (pathGenerator.ts lines 14-22). -/
structure GeneratedPathStructure where
  title : String
  description : String
  topic : String
  difficulty_level : String
  estimated_duration : ℚ
  tags : List String
  nodes : List NodeData
  deriving Repr, DecidableEq

/-! ## pathGenerator.ts: utility functions (lines 856-953) -/

/-- JS `a || b` on numbers: 0 is falsy. -/
def jsOrNum (a : Option ℚ) (b : ℚ) : ℚ :=
  match a with
  | some x => if x = 0 then b else x
  | none => b

/-- JS `a || b` where `a` is an optional string: undefined and the empty
string are falsy. -/
def jsOrStrOpt (a : Option String) (b : String) : String :=
  match a with
  | some x => if x = "" then b else x
  | none => b

/-- JS `Math.ceil` on a number, as a rational. -/
def jsCeil (x : ℚ) : ℚ := (⌈x⌉ : ℚ)

/-- JS `Math.floor` on a number, as a rational. -/
def jsFloor (x : ℚ) : ℚ := (⌊x⌋ : ℚ)

/-- Template-literal rendering of a number; exact for the integers this
code produces. -/
def jsNumToString (q : ℚ) : String :=
  if q.den = 1 then toString q.num else toString q.num ++ "/" ++ toString q.den

/-- Case-insensitive prefix test against an (already lowercase) pattern. -/
def ciHasPrefix (s : List Char) (pat : String) : Bool :=
  pat.toList.isPrefixOf (s.map Char.toLower)

/-- Case-insensitive suffix test against an (already lowercase) pattern. -/
def ciHasSuffix (s : List Char) (pat : String) : Bool :=
  pat.toList.isSuffixOf (s.map Char.toLower)

/-- The leading-verb strip of `extractMainTopic` (pathGenerator.ts line
859): the regex `^(learn|how to|guide to|tutorial|course|master|study)\s*`,
case-insensitive, alternatives tried in order; the match and the
whitespace after it are removed. -/
def stripLeadVerb (cs : List Char) : List Char :=
  match ["learn", "how to", "guide to", "tutorial", "course", "master",
      "study"].find? (fun p => ciHasPrefix cs p) with
  | some p => (cs.drop p.length).dropWhile Char.isWhitespace
  | none => cs

/-- The trailing-qualifier strip of `extractMainTopic` (pathGenerator.ts
line 860): the regex `\s+(basics?|fundamentals?|introduction|beginner|advanced)$`,
case-insensitive; the qualifier and the whitespace run before it are
removed, and at least one whitespace character must precede it. -/
def stripTrailQualifier (cs : List Char) : List Char :=
  match ["basics", "basic", "fundamentals", "fundamental", "introduction",
      "beginner", "advanced"].find? (fun p =>
        ciHasSuffix cs p &&
        ((cs.take (cs.length - p.length)).reverse.headD 'x').isWhitespace) with
  | some p =>
    ((cs.take (cs.length - p.length)).reverse.dropWhile Char.isWhitespace).reverse
  | none => cs

/-- `PathGenerator.extractMainTopic` (pathGenerator.ts lines 857-862). -/
def extractMainTopic (query : String) : String :=
  let t := (String.mk (stripTrailQualifier (stripLeadVerb query.data))).trim
  if t = "" then "Topic" else t

/-- JS `word.charAt(0).toUpperCase() + word.slice(1).toLowerCase()`. -/
def capWord (w : String) : String :=
  match w.data with
  | [] => ""
  | c :: rest => String.mk (Char.toUpper c :: rest.map Char.toLower)

/-- `PathGenerator.capitalizeWords` (pathGenerator.ts lines 864-868). -/
def capitalizeWords (text : String) : String :=
  String.intercalate " " ((text.splitOn " ").map capWord)

/-- `mainTopic.toLowerCase().replace(/\s+/g, '+')` (pathGenerator.ts
lines 826, 960): lowercase, then each whitespace run becomes one `+`. -/
def searchTopicOf (mainTopic : String) : String :=
  String.mk
    (((jsToLower mainTopic).data.foldl
      (fun (acc : List Char × Bool) c =>
        if c.isWhitespace then
          (if acc.2 then acc else (acc.1 ++ ['+'], true))
        else (acc.1 ++ [c], false))
      ([], false)).1)

/-- The `prefixes[difficulty]` lookup of `generateTitle` (pathGenerator.ts
lines 872-877): a missing key renders as `undefined`. -/
def titlePrefixes (difficulty : String) : String :=
  if difficulty = "beginner" then "Complete Beginner's Guide to"
  else if difficulty = "intermediate" then "Intermediate"
  else if difficulty = "advanced" then "Advanced Mastery of"
  else "undefined"

/-- `PathGenerator.generateTitle` (pathGenerator.ts lines 870-878). -/
def generateTitle (query topicKey difficulty : String) : String :=
  titlePrefixes difficulty ++ " " ++ capitalizeWords topicKey

/-- The `prefixes[difficulty]` lookup of `generateCustomTitle`
(pathGenerator.ts lines 883-887). -/
def customTitlePrefixes (difficulty : String) : String :=
  if difficulty = "beginner" then "Learn"
  else if difficulty = "intermediate" then "Master"
  else if difficulty = "advanced" then "Advanced"
  else "undefined"

/-- `PathGenerator.generateCustomTitle` (pathGenerator.ts lines 880-889). -/
def generateCustomTitle (query difficulty : String) : String :=
  customTitlePrefixes difficulty ++ " " ++ capitalizeWords (extractMainTopic query)

/-- `PathGenerator.generateDescription` (pathGenerator.ts lines 891-894). -/
def generateDescription (topic : TopicStructure) (difficulty : String)
    (duration : ℚ) : String :=
  let outcomes := String.intercalate "\n" ((topic.outcomes.take 3).map (fun o => "• " ++ o))
  "A comprehensive " ++ jsNumToString duration ++ "-hour " ++ difficulty ++
    "-level course with real resources and practical exercises.\n\n🎯 **What you'll achieve:**\n" ++
    outcomes ++
    "\n\n📚 **Learning approach:**\n• Structured modules with real resources\n• Hands-on practice and exercises\n• Progress tracking and assessments\n• " ++
    topic.learningType ++
    " learning methodology\n\n✨ **Why this path works:**\n• Curated, high-quality resources\n• Progressive skill building\n• Practical application focus\n• Expert-designed curriculum"

/-- `PathGenerator.generateCustomDescription` (pathGenerator.ts lines
896-899). -/
def generateCustomDescription (query difficulty : String) (duration : ℚ) : String :=
  let mainTopic := extractMainTopic query
  "A structured " ++ jsNumToString duration ++ "-hour " ++ difficulty ++
    "-level learning path for " ++ mainTopic ++
    ".\n\n🎯 **What you'll get:**\n• Curated learning resources\n• Hands-on practice exercises\n• Progressive skill development\n• Real-world applications\n\n📚 **Learning approach:**\n• Start with fundamentals\n• Build through practice\n• Apply in real scenarios\n• Advance to expert level\n\n✨ **Success guaranteed:**\n• Quality resources from trusted sources\n• Practical, applicable skills\n• Clear learning progression\n• Measurable outcomes"

/-- `PathGenerator.generateTags` (pathGenerator.ts lines 901-919): a JS
Set built in insertion order, then the query's words longer than 3
characters that are not excluded, capped at 8. -/
def generateTags (topicKey : String) (topic : TopicStructure) (query : String) :
    List String :=
  let t := addUnique (addUnique (addUnique (addUnique (addUnique (addUnique
    (addUnique [] topicKey) topic.category) topic.subcategory) topic.learningType)
    "structured") "resources") "practical"
  let queryWords := (jsToLower query).splitOn " "
  let t2 := queryWords.foldl (fun acc word =>
    if word.length > 3 && !(["learn", "how", "guide", "tutorial"].contains word)
    then addUnique acc word else acc) t
  t2.take 8

/-- `PathGenerator.generateCustomTags` (pathGenerator.ts lines 921-939). -/
def generateCustomTags (query category : String) : List String :=
  let t := addUnique (addUnique (addUnique (addUnique [] category) "custom")
    "structured") "resources"
  let t1 := addUnique t (jsToLower (extractMainTopic query))
  let queryWords := (jsToLower query).splitOn " "
  let t2 := queryWords.foldl (fun acc word =>
    if word.length > 3 && !(["learn", "how", "guide", "tutorial"].contains word)
    then addUnique acc word else acc) t1
  t2.take 8

/-- `PathGenerator.mapCategoryToTopic` (pathGenerator.ts lines 941-953). -/
def mapCategoryToTopic (category : String) : String :=
  if category = "strategy-games" then "design"
  else if category = "life-skills" then "business"
  else if category = "music" then "design"
  else if category = "creative" then "design"
  else if category = "technology" then "web-development"
  else if category = "science" then "data-science"
  else if category = "business" then "business"
  else if category = "general" then "business"
  else "business"

/-! ## pathGenerator.ts: the topic knowledge base (lines 67-622) -/

/-- The `chess` entry of `initializeTopicDatabase` (pathGenerator.ts
lines 69-222). -/
def chessTopic : TopicStructure :=
  { category := "strategy-games"
  , subcategory := "board-games"
  , learningType := "mixed"
  , estimatedHours := 30
  , prerequisites := []
  , outcomes :=
    [ "Understand all chess rules and piece movements"
    , "Apply basic tactical patterns in games"
    , "Execute fundamental opening principles"
    , "Recognize common endgame patterns"
    , "Analyze chess positions effectively" ]
  , modules :=
    [ { title := "Chess Fundamentals"
      , description := "Master the basic rules, piece movements, and board setup"
      , concepts := ["Board setup and orientation", "Piece values and movements",
          "Special moves (castling, en passant)", "Check, checkmate, and stalemate",
          "Basic chess notation"]
      , skills := ["Piece movement accuracy", "Legal move recognition",
          "Basic notation reading", "Game setup"]
      , resources :=
        [ { title := "Chess.com Learn Chess Basics"
          , description := "Interactive lessons covering all basic chess rules and piece movements"
          , type := "course"
          , url := some "https://www.chess.com/learn-how-to-play-chess"
          , duration := 60
          , platform := "Chess.com"
          , difficulty := "beginner" }
        , { title := "Chess Rules and Basics - ChessNetwork"
          , description := "Comprehensive video explaining all chess rules with visual demonstrations"
          , type := "video"
          , url := some "https://www.youtube.com/watch?v=OCSbzArwB10"
          , duration := 45
          , platform := "YouTube"
          , difficulty := "beginner" }
        , { title := "Lichess Learn Chess"
          , description := "Free interactive chess learning platform with practice exercises"
          , type := "course"
          , url := some "https://lichess.org/learn"
          , duration := 90
          , platform := "Lichess"
          , difficulty := "beginner" } ]
      , exercises :=
        [ "Set up the chess board correctly 10 times"
        , "Practice moving each piece type on an empty board"
        , "Identify legal and illegal moves in given positions"
        , "Practice writing moves in algebraic notation" ]
      , assessments :=
        [ "Chess rules quiz (20 questions)"
        , "Piece movement accuracy test"
        , "Notation reading exercise" ] }
    , { title := "Basic Tactics"
      , description := "Learn fundamental tactical patterns and combinations"
      , concepts := ["Pin tactics", "Fork attacks", "Skewer patterns",
          "Discovered attacks", "Double attacks and combinations"]
      , skills := ["Pattern recognition", "Tactical calculation", "Threat assessment",
          "Combination planning"]
      , resources :=
        [ { title := "Chess Tactics for Beginners"
          , description := "Comprehensive guide to basic chess tactics with examples"
          , type := "article"
          , url := some "https://www.chess.com/article/view/chess-tactics"
          , duration := 30
          , platform := "Chess.com"
          , difficulty := "beginner" }
        , { title := "Chess Tactics Trainer"
          , description := "Interactive tactical puzzle solving with progressive difficulty"
          , type := "course"
          , url := some "https://www.chess.com/puzzles"
          , duration := 120
          , platform := "Chess.com"
          , difficulty := "beginner" }
        , { title := "Lichess Puzzle Rush"
          , description := "Free tactical puzzle training with thousands of positions"
          , type := "course"
          , url := some "https://lichess.org/training"
          , duration := 90
          , platform := "Lichess"
          , difficulty := "beginner" } ]
      , exercises :=
        [ "Solve 50 basic tactical puzzles"
        , "Create 5 tactical positions from your games"
        , "Practice finding tactics in master games"
        , "Time-controlled tactical solving (3 minutes per puzzle)" ]
      , assessments :=
        [ "Tactical pattern recognition test"
        , "Timed puzzle solving challenge"
        , "Position analysis exercise" ] }
    , { title := "Opening Principles"
      , description := "Understand how to start a chess game effectively"
      , concepts := ["Center control strategies", "Piece development order",
          "King safety principles", "Time and tempo management"]
      , skills := ["Opening preparation", "Development planning",
          "Pawn structure understanding", "Opening repertoire building"]
      , resources :=
        [ { title := "Chess Opening Principles"
          , description := "Essential opening principles every chess player should know"
          , type := "article"
          , url := some "https://www.chess.com/article/view/chess-opening-principles"
          , duration := 25
          , platform := "Chess.com"
          , difficulty := "beginner" }
        , { title := "Opening Explorer"
          , description := "Database of chess openings with statistics and master games"
          , type := "course"
          , url := some "https://lichess.org/analysis"
          , duration := 60
          , platform := "Lichess"
          , difficulty := "beginner" }
        , { title := "Basic Chess Openings Explained"
          , description := "Video series covering the most important chess openings"
          , type := "video"
          , url := some "https://www.youtube.com/watch?v=21L45Qo6EIY"
          , duration := 40
          , platform := "YouTube"
          , difficulty := "beginner" } ]
      , exercises :=
        [ "Learn the Italian Game opening completely"
        , "Practice the Queen's Gambit opening"
        , "Analyze 10 master games focusing on opening play"
        , "Build a basic opening repertoire for White and Black" ]
      , assessments :=
        [ "Opening principles quiz"
        , "Opening repertoire presentation"
        , "Game analysis focusing on opening phase" ] } ] }

/-- The `cooking` entry of `initializeTopicDatabase` (pathGenerator.ts
lines 225-332). -/
def cookingTopic : TopicStructure :=
  { category := "life-skills"
  , subcategory := "culinary"
  , learningType := "practical"
  , estimatedHours := 25
  , prerequisites := []
  , outcomes :=
    [ "Execute basic cooking techniques safely"
    , "Prepare balanced, nutritious meals"
    , "Understand flavor combinations and seasoning"
    , "Plan and organize meal preparation efficiently"
    , "Adapt recipes to dietary needs and preferences" ]
  , modules :=
    [ { title := "Kitchen Safety & Setup"
      , description := "Essential safety practices and kitchen organization"
      , concepts := ["Food safety fundamentals", "Kitchen hygiene protocols",
          "Equipment safety procedures", "Proper food storage methods"]
      , skills := ["Safe food handling", "Kitchen organization", "Equipment operation",
          "Sanitation practices"]
      , resources :=
        [ { title := "Food Safety Basics"
          , description := "Comprehensive guide to food safety in home kitchens"
          , type := "article"
          , url := some "https://www.foodsafety.gov/food-safety-charts/safe-minimum-cooking-temperatures"
          , duration := 20
          , platform := "FoodSafety.gov"
          , difficulty := "beginner" }
        , { title := "Kitchen Setup and Organization"
          , description := "How to organize your kitchen for efficient cooking"
          , type := "video"
          , url := some "https://www.youtube.com/watch?v=4ur5YQIbOSs"
          , duration := 15
          , platform := "YouTube"
          , difficulty := "beginner" }
        , { title := "Essential Kitchen Tools Guide"
          , description := "Complete guide to must-have kitchen equipment"
          , type := "article"
          , url := some "https://www.seriouseats.com/basic-knife-skills"
          , duration := 25
          , platform := "Serious Eats"
          , difficulty := "beginner" } ]
      , exercises :=
        [ "Organize your kitchen workspace for efficiency"
        , "Create a food safety checklist for your kitchen"
        , "Practice proper hand washing and sanitization"
        , "Set up mise en place for a simple recipe" ]
      , assessments :=
        [ "Food safety knowledge quiz"
        , "Kitchen organization evaluation"
        , "Safety procedure demonstration" ] }
    , { title := "Knife Skills & Food Prep"
      , description := "Master fundamental cutting techniques and food preparation"
      , concepts := ["Knife types and uses", "Basic cutting techniques",
          "Food preparation methods", "Ingredient preparation timing"]
      , skills := ["Proper knife handling", "Uniform cutting", "Efficient prep work",
          "Speed and accuracy"]
      , resources :=
        [ { title := "Basic Knife Skills"
          , description := "Professional knife techniques for home cooks"
          , type := "video"
          , url := some "https://www.youtube.com/watch?v=G-Fg7l7G1zw"
          , duration := 30
          , platform := "YouTube"
          , difficulty := "beginner" }
        , { title := "Knife Skills Guide - Serious Eats"
          , description := "Comprehensive written guide to knife techniques"
          , type := "article"
          , url := some "https://www.seriouseats.com/basic-knife-skills"
          , duration := 20
          , platform := "Serious Eats"
          , difficulty := "beginner" }
        , { title := "Food Prep Techniques"
          , description := "Essential food preparation methods and tips"
          , type := "video"
          , url := some "https://www.youtube.com/watch?v=nffGuGwCdZE"
          , duration := 25
          , platform := "YouTube"
          , difficulty := "beginner" } ]
      , exercises :=
        [ "Practice julienne cuts on carrots"
        , "Master dicing onions uniformly"
        , "Learn to brunoise vegetables"
        , "Prep ingredients for a complete meal efficiently" ]
      , assessments :=
        [ "Knife skills demonstration"
        , "Cutting accuracy and speed test"
        , "Prep efficiency evaluation" ] } ] }

/-- The `guitar` entry of `initializeTopicDatabase` (pathGenerator.ts
lines 335-442). -/
def guitarTopic : TopicStructure :=
  { category := "music"
  , subcategory := "instruments"
  , learningType := "practical"
  , estimatedHours := 40
  , prerequisites := []
  , outcomes :=
    [ "Play basic chords and progressions fluently"
    , "Read guitar tablature and basic notation"
    , "Perform simple songs with proper technique"
    , "Understand basic music theory for guitar"
    , "Develop effective practice routines" ]
  , modules :=
    [ { title := "Guitar Basics & Setup"
      , description := "Learn guitar anatomy, proper posture, and instrument care"
      , concepts := ["Guitar anatomy and parts", "Proper sitting and standing posture",
          "Tuning methods", "String names and fret numbering", "Basic maintenance"]
      , skills := ["Proper guitar holding", "Accurate tuning", "Basic maintenance",
          "Posture awareness"]
      , resources :=
        [ { title := "Guitar Basics for Beginners"
          , description := "Complete introduction to guitar fundamentals"
          , type := "video"
          , url := some "https://www.youtube.com/watch?v=F5bqTVNXOLs"
          , duration := 45
          , platform := "YouTube"
          , difficulty := "beginner" }
        , { title := "JustinGuitar Beginner Course"
          , description := "Structured beginner guitar course with progressive lessons"
          , type := "course"
          , url := some "https://www.justinguitar.com/guitar-lessons/beginner-guitar-course-grade-1"
          , duration := 120
          , platform := "JustinGuitar"
          , difficulty := "beginner" }
        , { title := "Guitar Tuning Guide"
          , description := "Learn different methods to tune your guitar"
          , type := "article"
          , url := some "https://www.fender.com/articles/how-to/how-to-tune-a-guitar"
          , duration := 15
          , platform := "Fender"
          , difficulty := "beginner" } ]
      , exercises :=
        [ "Practice holding the guitar in different positions"
        , "Tune your guitar using multiple methods"
        , "Learn the names of all strings and frets"
        , "Set up a comfortable practice space" ]
      , assessments :=
        [ "Guitar anatomy quiz"
        , "Tuning accuracy test"
        , "Posture evaluation" ] }
    , { title := "First Chords & Strumming"
      , description := "Master basic open chords and strumming patterns"
      , concepts := ["Open chord formations", "Finger placement techniques",
          "Basic strumming patterns", "Rhythm fundamentals", "Chord transitions"]
      , skills := ["Clean chord formation", "Steady strumming", "Smooth chord changes",
          "Rhythm keeping"]
      , resources :=
        [ { title := "Basic Guitar Chords"
          , description := "Learn the most essential guitar chords"
          , type := "video"
          , url := some "https://www.youtube.com/watch?v=NGXSoVRDQTE"
          , duration := 30
          , platform := "YouTube"
          , difficulty := "beginner" }
        , { title := "Strumming Patterns for Beginners"
          , description := "Essential strumming patterns every guitarist should know"
          , type := "video"
          , url := some "https://www.youtube.com/watch?v=oXerhIdTR8Y"
          , duration := 25
          , platform := "YouTube"
          , difficulty := "beginner" }
        , { title := "Ultimate Guitar Chord Chart"
          , description := "Comprehensive chord diagrams and fingering guide"
          , type := "article"
          , url := some "https://www.ultimate-guitar.com/lessons/for_beginners/basic_guitar_chords.html"
          , duration := 20
          , platform := "Ultimate Guitar"
          , difficulty := "beginner" } ]
      , exercises :=
        [ "Master G, C, D, Em, and Am chords"
        , "Practice 1-minute chord changes"
        , "Learn basic down-up strumming pattern"
        , "Play your first complete song" ]
      , assessments :=
        [ "Chord clarity evaluation"
        , "Strumming rhythm test"
        , "Song performance assessment" ] } ] }

/-- The `programming` entry of `addAdvancedTopics` (pathGenerator.ts
lines 450-557). -/
def programmingTopic : TopicStructure :=
  { category := "technology"
  , subcategory := "software-development"
  , learningType := "practical"
  , estimatedHours := 50
  , prerequisites := []
  , outcomes :=
    [ "Build responsive web applications"
    , "Understand programming fundamentals"
    , "Use version control effectively"
    , "Debug and troubleshoot code"
    , "Deploy applications to production" ]
  , modules :=
    [ { title := "Programming Fundamentals"
      , description := "Core programming concepts and problem-solving"
      , concepts := ["Variables and data types", "Control structures",
          "Functions and scope", "Algorithms and logic", "Problem decomposition"]
      , skills := ["Logical thinking", "Problem solving", "Code organization",
          "Debugging basics"]
      , resources :=
        [ { title := "freeCodeCamp JavaScript Basics"
          , description := "Comprehensive JavaScript fundamentals course"
          , type := "course"
          , url := some "https://www.freecodecamp.org/learn/javascript-algorithms-and-data-structures/"
          , duration := 180
          , platform := "freeCodeCamp"
          , difficulty := "beginner" }
        , { title := "MDN JavaScript Guide"
          , description := "Official Mozilla documentation for JavaScript"
          , type := "article"
          , url := some "https://developer.mozilla.org/en-US/docs/Web/JavaScript/Guide"
          , duration := 120
          , platform := "MDN"
          , difficulty := "beginner" }
        , { title := "JavaScript Crash Course"
          , description := "Fast-paced introduction to JavaScript programming"
          , type := "video"
          , url := some "https://www.youtube.com/watch?v=hdI2bqOjy3c"
          , duration := 90
          , platform := "YouTube"
          , difficulty := "beginner" } ]
      , exercises :=
        [ "Build a simple calculator"
        , "Create a number guessing game"
        , "Implement basic sorting algorithms"
        , "Solve coding challenges on HackerRank" ]
      , assessments :=
        [ "Programming logic quiz"
        , "Code review exercise"
        , "Algorithm implementation test" ] }
    , { title := "HTML & CSS Mastery"
      , description := "Structure and style web pages effectively"
      , concepts := ["Semantic HTML structure", "CSS selectors and properties",
          "Flexbox and Grid layouts", "Responsive design principles"]
      , skills := ["Clean markup writing", "Flexible layout creation",
          "Cross-browser compatibility", "Mobile-first design"]
      , resources :=
        [ { title := "freeCodeCamp Responsive Web Design"
          , description := "Complete course on HTML and CSS"
          , type := "course"
          , url := some "https://www.freecodecamp.org/learn/responsive-web-design/"
          , duration := 150
          , platform := "freeCodeCamp"
          , difficulty := "beginner" }
        , { title := "CSS-Tricks Complete Guide to Flexbox"
          , description := "Comprehensive guide to CSS Flexbox"
          , type := "article"
          , url := some "https://css-tricks.com/snippets/css/a-guide-to-flexbox/"
          , duration := 30
          , platform := "CSS-Tricks"
          , difficulty := "intermediate" }
        , { title := "HTML & CSS Crash Course"
          , description := "Build a website from scratch"
          , type := "video"
          , url := some "https://www.youtube.com/watch?v=UB1O30fR-EE"
          , duration := 120
          , platform := "YouTube"
          , difficulty := "beginner" } ]
      , exercises :=
        [ "Build a personal portfolio website"
        , "Create responsive layouts using Flexbox"
        , "Design a mobile-first website"
        , "Implement CSS animations and transitions" ]
      , assessments :=
        [ "HTML semantic structure review"
        , "CSS layout challenge"
        , "Responsive design evaluation" ] } ] }

/-- The `photography` entry of `addAdvancedTopics` (pathGenerator.ts
lines 560-621). -/
def photographyTopic : TopicStructure :=
  { category := "creative"
  , subcategory := "visual-arts"
  , learningType := "mixed"
  , estimatedHours := 35
  , prerequisites := []
  , outcomes :=
    [ "Understand camera controls and settings"
    , "Compose compelling photographs"
    , "Control lighting effectively"
    , "Edit photos professionally"
    , "Develop a personal photographic style" ]
  , modules :=
    [ { title := "Camera Fundamentals"
      , description := "Master camera controls and technical basics"
      , concepts := ["Exposure triangle (aperture, shutter, ISO)",
          "Camera modes and settings", "Focus systems and techniques",
          "Metering and exposure"]
      , skills := ["Manual exposure control", "Focus accuracy", "Camera operation",
          "Technical problem solving"]
      , resources :=
        [ { title := "Photography Basics: The Complete Beginner's Guide"
          , description := "Comprehensive introduction to photography fundamentals"
          , type := "article"
          , url := some "https://www.photographylife.com/photography-basics"
          , duration := 45
          , platform := "Photography Life"
          , difficulty := "beginner" }
        , { title := "Understanding Exposure"
          , description := "Master the exposure triangle and camera settings"
          , type := "video"
          , url := some "https://www.youtube.com/watch?v=3_79_gdhvZc"
          , duration := 30
          , platform := "YouTube"
          , difficulty := "beginner" }
        , { title := "Camera Settings Explained"
          , description := "Detailed guide to all camera modes and settings"
          , type := "article"
          , url := some "https://digital-photography-school.com/camera-modes/"
          , duration := 25
          , platform := "Digital Photography School"
          , difficulty := "beginner" } ]
      , exercises :=
        [ "Practice manual exposure in different lighting"
        , "Experiment with depth of field control"
        , "Master focus techniques for moving subjects"
        , "Create exposure comparison series" ]
      , assessments :=
        [ "Technical knowledge quiz"
        , "Exposure accuracy evaluation"
        , "Camera operation test" ] } ] }

/-- The topic knowledge base, in insertion order (pathGenerator.ts lines
67-446 and 448-622). -/
def topicDatabase : List (String × TopicStructure) :=
  [ ("chess", chessTopic)
  , ("cooking", cookingTopic)
  , ("guitar", guitarTopic)
  , ("programming", programmingTopic)
  , ("photography", photographyTopic) ]

/-! ## pathGenerator.ts: topic detection and path generation (lines 624-1002) -/

/-- JS `Map.prototype.get` over an insertion-ordered association list. -/
def listLookup (l : List (String × TopicStructure)) (k : String) :
    Option TopicStructure :=
  (l.find? (fun kv => kv.1 == k)).map Prod.snd

/-- The expanded keyword table of `detectTopic` (pathGenerator.ts lines
646-652). -/
def keywordMap : List (String × List String) :=
  [ ("chess", ["chess", "board game", "strategy game", "checkmate", "tactics"])
  , ("cooking", ["cooking", "cook", "recipe", "kitchen", "food", "culinary",
      "baking", "chef"])
  , ("guitar", ["guitar", "music", "instrument", "strings", "chord", "acoustic",
      "electric"])
  , ("programming", ["programming", "coding", "web development", "javascript",
      "html", "css", "software", "developer"])
  , ("photography", ["photography", "photo", "camera", "picture", "image",
      "lens", "exposure"]) ]

/-- The result record of `detectTopic` (pathGenerator.ts lines 625-630). -/
structure TopicDetection where
  detectedTopic : Option TopicStructure
  topicKey : Option String
  confidence : ℚ
  category : String
  deriving Repr, DecidableEq

/-- `PathGenerator.detectTopic` (pathGenerator.ts lines 625-677): direct
containment match against the knowledge-base keys (confidence 0.9), then
the expanded keyword table (confidence 0.8, the `if (topic)` guard folded
into the search), else the general fallback (confidence 0.3). -/
def detectTopic (query : String) : TopicDetection :=
  let lowerQuery := jsToLower query
  match topicDatabase.find? (fun kv => strIncludes lowerQuery kv.1) with
  | some kv =>
    { detectedTopic := some kv.2
    , topicKey := some kv.1
    , confidence := 9/10
    , category := kv.2.category }
  | none =>
    match keywordMap.find? (fun tk =>
        tk.2.any (fun kw => strIncludes lowerQuery kw) &&
        (listLookup topicDatabase tk.1).isSome) with
    | some tk =>
      match listLookup topicDatabase tk.1 with
      | some topic =>
        { detectedTopic := some topic
        , topicKey := some tk.1
        , confidence := 8/10
        , category := topic.category }
      | none =>
        { detectedTopic := none, topicKey := none, confidence := 3/10
        , category := "general" }
    | none =>
      { detectedTopic := none, topicKey := none, confidence := 3/10
      , category := "general" }

/-- `PathGenerator.selectModulesByDifficulty` (pathGenerator.ts lines
768-776). -/
def selectModulesByDifficulty (modules : List TopicModule) (difficulty : String) :
    List TopicModule :=
  if difficulty = "beginner" then modules.take (min 3 modules.length)
  else if difficulty = "intermediate" then modules.take (min 5 modules.length)
  else modules

/-- One resource-based learning node of `generateStructuredPath`
(pathGenerator.ts lines 714-725). -/
def resourceNode (m : TopicModule) (resource : LearningResource) (idx : ℕ) :
    NodeData :=
  { title := resource.title
  , description := resource.description ++ "\n\n📚 **What you'll learn:**\n" ++
      String.intercalate "\n" ((m.concepts.take 3).map (fun c => "• " ++ c)) ++
      "\n\n🎯 **Skills you'll develop:**\n" ++
      String.intercalate "\n" ((m.skills.take 3).map (fun s => "• " ++ s)) ++
      "\n\n⏱️ **Platform:** " ++ resource.platform ++
      "\n📊 **Difficulty:** " ++ resource.difficulty
  , content_type := resource.type
  , resource_url := resource.url
  , estimated_duration := resource.duration
  , order_index := idx
  , prerequisites := []
  , is_required := true }

/-- The hands-on practice node of `generateStructuredPath`
(pathGenerator.ts lines 728-739). -/
def exerciseNode (m : TopicModule) (moduleDuration : ℚ) (idx : ℕ) : NodeData :=
  { title := m.title ++ " - Hands-On Practice"
  , description := "Apply what you've learned through practical exercises:\n\n🛠️ **Practice Activities:**\n" ++
      String.intercalate "\n" (m.exercises.map (fun e => "• " ++ e)) ++
      "\n\n💡 **Tips:**\n• Take your time with each exercise\n• Practice regularly for best results\n• Don't hesitate to repeat exercises\n• Track your progress and improvements"
  , content_type := "exercise"
  , resource_url := none
  , estimated_duration := jsCeil (moduleDuration * (3/10))
  , order_index := idx
  , prerequisites := []
  , is_required := true }

/-- The assessment node of `generateStructuredPath` (pathGenerator.ts
lines 742-753). -/
def assessmentNode (m : TopicModule) (moduleDuration : ℚ) (idx : ℕ) : NodeData :=
  { title := m.title ++ " - Knowledge Assessment"
  , description := "Test your understanding and track your progress:\n\n📝 **Assessment Methods:**\n" ++
      String.intercalate "\n" (m.assessments.map (fun a => "• " ++ a)) ++
      "\n\n✅ **Success Criteria:**\n• Demonstrate understanding of key concepts\n• Apply skills in practical scenarios\n• Identify areas for improvement\n• Build confidence in your abilities"
  , content_type := "exercise"
  , resource_url := none
  , estimated_duration := jsCeil (moduleDuration * (2/10))
  , order_index := idx
  , prerequisites := []
  , is_required := false }

/-- The inner resource loop of `generateStructuredPath` (pathGenerator.ts
lines 714-725): one node per resource, the running order index advancing
with each push. -/
def nodesFromResources (m : TopicModule) : List LearningResource → ℕ → List NodeData
  | [], _ => []
  | r :: rs, k => resourceNode m r k :: nodesFromResources m rs (k + 1)

/-- The nodes one module contributes in `generateStructuredPath`
(pathGenerator.ts lines 710-754), with the order counter threaded
through: resource nodes, then a practice node when the module has
exercises, then an assessment node when it has assessments. -/
def moduleNodes (m : TopicModule) (moduleDuration : ℚ) (k : ℕ) :
    List NodeData × ℕ :=
  let ns1 := nodesFromResources m m.resources k
  let k1 := k + m.resources.length
  let p2 : List NodeData × ℕ :=
    if m.exercises.length > 0 then (ns1 ++ [exerciseNode m moduleDuration k1], k1 + 1)
    else (ns1, k1)
  if m.assessments.length > 0 then (p2.1 ++ [assessmentNode m moduleDuration p2.2], p2.2 + 1)
  else p2

/-- The module loop of `generateStructuredPath` (pathGenerator.ts lines
710-754); `total` is the selected module count used for the per-module
duration share. -/
def structuredNodes (duration : ℚ) (total : ℕ) :
    List TopicModule → ℕ → List NodeData
  | [], _ => []
  | m :: ms, k =>
    let moduleDuration := jsCeil (duration / (total : ℚ))
    let p := moduleNodes m moduleDuration k
    p.1 ++ structuredNodes duration total ms p.2

/-- `PathGenerator.generateStructuredPath` (pathGenerator.ts lines
696-765). -/
def generateStructuredPath (topic : TopicStructure) (topicKey : String)
    (request : GeneratePathRequest) : GeneratedPathStructure :=
  let difficulty := jsOrStrOpt request.difficulty "beginner"
  let duration := jsOrNum request.duration topic.estimatedHours
  let selectedModules := selectModulesByDifficulty topic.modules difficulty
  { title := generateTitle request.query topicKey difficulty
  , description := generateDescription topic difficulty duration
  , topic := mapCategoryToTopic topic.category
  , difficulty_level := difficulty
  , estimated_duration := duration
  , tags := generateTags topicKey topic request.query
  , nodes := structuredNodes duration selectedModules.length selectedModules 1 }

/-- One entry of `generateCustomModulesWithResources` (pathGenerator.ts
lines 817-822). -/
structure CustomModule where
  title : String
  description : String
  type : String
  url : Option String
  deriving Repr, DecidableEq

/-- `PathGenerator.generateCustomModulesWithResources` (pathGenerator.ts
lines 817-854): the fixed 4-module generic sequence. -/
def generateCustomModulesWithResources (mainTopic difficulty : String) :
    List CustomModule :=
  let capitalizedTopic := capitalizeWords mainTopic
  let searchTopic := searchTopicOf mainTopic
  [ { title := capitalizedTopic ++ " Fundamentals"
    , description := "Master the core concepts and principles of " ++ mainTopic ++
        ". This comprehensive introduction covers essential knowledge and foundational skills.\n\n📚 **What you'll learn:**\n• Basic terminology and concepts\n• Fundamental principles\n• Common practices and standards\n• Essential tools and resources\n\n🎯 **Learning approach:**\n• Start with theory and concepts\n• Build understanding gradually\n• Focus on practical applications\n• Prepare for hands-on practice"
    , type := "article"
    , url := some ("https://www.google.com/search?q=" ++ searchTopic ++ "+fundamentals+guide+tutorial") }
  , { title := capitalizedTopic ++ " Video Tutorial"
    , description := "Learn " ++ mainTopic ++
        " through comprehensive video instruction. Visual learning helps you understand complex concepts and see practical demonstrations.\n\n🎥 **Video learning benefits:**\n• Visual demonstrations\n• Step-by-step guidance\n• Expert instruction\n• Pause and replay as needed\n\n💡 **Study tips:**\n• Take notes while watching\n• Practice along with the video\n• Rewatch difficult sections\n• Apply what you learn immediately"
    , type := "video"
    , url := some ("https://www.youtube.com/results?search_query=" ++ searchTopic ++ "+tutorial+" ++ difficulty) }
  , { title := capitalizedTopic ++ " Hands-On Practice"
    , description := "Apply your knowledge through practical exercises and real-world projects. Hands-on practice is essential for mastering any skill.\n\n🛠️ **Practice activities:**\n• Guided exercises\n• Mini-projects\n• Skill-building challenges\n• Real-world applications\n\n✅ **Practice guidelines:**\n• Start with simple exercises\n• Gradually increase complexity\n• Focus on quality over speed\n• Learn from mistakes and iterate"
    , type := "exercise"
    , url := none }
  , { title := capitalizedTopic ++ " Advanced Resources"
    , description := "Explore advanced concepts and deepen your understanding with curated resources. Take your skills to the next level.\n\n📖 **Advanced topics:**\n• Industry best practices\n• Advanced techniques\n• Professional workflows\n• Specialized applications\n\n🚀 **Next steps:**\n• Join communities and forums\n• Find mentors and experts\n• Work on challenging projects\n• Share your knowledge with others"
    , type := "course"
    , url := some ("https://www.coursera.org/search?query=" ++ searchTopic ++ "&") } ]

/-- The `modules.forEach((module, index) => nodes.push(...))` loop of
`generateCustomPath` (pathGenerator.ts lines 790-803): `order_index` is
`index + 1`. -/
def customNodesFrom : List CustomModule → ℚ → ℕ → List NodeData
  | [], _, _ => []
  | m :: ms, moduleDuration, index =>
    { title := m.title
    , description := m.description
    , content_type := m.type
    , resource_url := m.url
    , estimated_duration := moduleDuration
    , order_index := index + 1
    , prerequisites := []
    , is_required := true } :: customNodesFrom ms moduleDuration (index + 1)

/-- `PathGenerator.generateCustomPath` (pathGenerator.ts lines 779-814). -/
def generateCustomPath (request : GeneratePathRequest) (category : String) :
    GeneratedPathStructure :=
  let difficulty := jsOrStrOpt request.difficulty "beginner"
  let duration := jsOrNum request.duration 20
  let mainTopic := extractMainTopic request.query
  let modules := generateCustomModulesWithResources mainTopic difficulty
  let moduleDuration := jsCeil (duration / (modules.length : ℚ))
  { title := generateCustomTitle request.query difficulty
  , description := generateCustomDescription request.query difficulty duration
  , topic := mapCategoryToTopic category
  , difficulty_level := difficulty
  , estimated_duration := duration
  , tags := generateCustomTags request.query category
  , nodes := customNodesFrom modules moduleDuration 0 }

/-- `PathGenerator.generateFallbackPath` (pathGenerator.ts lines
956-1002): the minimal 3-node generic path. -/
def generateFallbackPath (request : GeneratePathRequest) : GeneratedPathStructure :=
  let difficulty := jsOrStrOpt request.difficulty "beginner"
  let duration := jsOrNum request.duration 15
  let mainTopic := extractMainTopic request.query
  let searchTopic := searchTopicOf mainTopic
  { title := "Learn " ++ capitalizeWords mainTopic
  , description := "A comprehensive " ++ jsNumToString duration ++
      "-hour course to master " ++ mainTopic ++
      " through structured learning and practical application.\n\n🎯 **Learning objectives:**\n• Understand core concepts\n• Develop practical skills\n• Apply knowledge effectively\n• Build confidence and expertise\n\n📚 **What's included:**\n• Curated learning resources\n• Hands-on exercises\n• Progress tracking\n• Real-world applications"
  , topic := "business"
  , difficulty_level := difficulty
  , estimated_duration := duration
  , tags := [jsToLower mainTopic, "custom", difficulty, "resources"]
  , nodes :=
    [ { title := capitalizeWords mainTopic ++ " Fundamentals"
      , description := "Master the core concepts and principles of " ++ mainTopic ++
          ".\n\n📚 **Learning focus:**\n• Essential concepts and terminology\n• Fundamental principles and methods\n• Best practices and standards\n• Foundation for advanced learning\n\n🎯 **Study approach:**\n• Read thoroughly and take notes\n• Look up unfamiliar terms\n• Connect concepts to real examples\n• Prepare for practical application"
      , content_type := "article"
      , resource_url := some ("https://www.google.com/search?q=" ++ searchTopic ++ "+fundamentals+guide+tutorial")
      , estimated_duration := jsCeil (duration * (4/10))
      , order_index := 1
      , prerequisites := []
      , is_required := true }
    , { title := capitalizeWords mainTopic ++ " Video Learning"
      , description := "Learn through comprehensive video instruction and demonstrations.\n\n🎥 **Video benefits:**\n• Visual learning and demonstrations\n• Expert instruction and tips\n• Step-by-step guidance\n• Ability to pause and replay\n\n💡 **Viewing tips:**\n• Take notes while watching\n• Practice along with examples\n• Rewatch complex sections\n• Apply lessons immediately"
      , content_type := "video"
      , resource_url := some ("https://www.youtube.com/results?search_query=" ++ searchTopic ++ "+tutorial+" ++ difficulty)
      , estimated_duration := jsCeil (duration * (4/10))
      , order_index := 2
      , prerequisites := []
      , is_required := true }
    , { title := capitalizeWords mainTopic ++ " Practical Application"
      , description := "Apply your knowledge through hands-on exercises and real-world projects.\n\n🛠️ **Practice activities:**\n• Guided exercises and tutorials\n• Mini-projects and challenges\n• Real-world application scenarios\n• Skill-building progressions\n\n✅ **Success strategies:**\n• Start with simple exercises\n• Build complexity gradually\n• Focus on understanding over speed\n• Learn from mistakes and iterate\n• Seek feedback and improvement"
      , content_type := "exercise"
      , resource_url := none
      , estimated_duration := jsFloor (duration * (2/10))
      , order_index := 3
      , prerequisites := []
      , is_required := true } ] }

/-- `PathGenerator.generatePath` (pathGenerator.ts lines 680-693): a
detected topic with confidence above 0.7 takes the structured generator,
anything else the custom generator. The catch branch delegates to
`generateFallbackPath`; the embedded generators are total, so that branch
is verified directly on `generateFallbackPath`. -/
def generatePath (request : GeneratePathRequest) : GeneratedPathStructure :=
  let detection := detectTopic request.query
  match detection.detectedTopic with
  | some topic =>
    if detection.confidence > 7/10 then
      generateStructuredPath topic (detection.topicKey.getD "") request
    else generateCustomPath request detection.category
  | none => generateCustomPath request detection.category

/-- The C1 invariant of a generated path document: at least one node, and
the order indices are exactly 1, 2, ..., n in list order. -/
def pathOrderOk (doc : GeneratedPathStructure) : Prop :=
  doc.nodes ≠ [] ∧
  doc.nodes.map (fun n => n.order_index) = List.range' 1 doc.nodes.length

/-- A concrete public path owned by user `u1`, used as a test row. -/
def samplePath : LearningPath :=
  { id := "p1"
  , title := "Learn Chess"
  , description := "A chess curriculum"
  , topic := "design"
  , difficulty_level := "beginner"
  , estimated_duration := 10
  , created_by := "u1"
  , is_public := true
  , total_nodes := 3
  , completion_rate := 0
  , tags := []
  , created_at := ""
  , updated_at := "" }

end MicroGuide

namespace MicroGuide

/-- Accumulating `forEach` with a constant bonus equals the bonus times the
number of matches. -/
theorem foldl_if_add (p : String → Bool) (c : ℚ) :
    ∀ (ks : List String) (s0 : ℚ),
      ks.foldl (fun s k => if p k then s + c else s) s0
        = s0 + c * ((ks.filter p).length : ℚ)
  | [], s0 => by simp
  | k :: ks, s0 => by
    by_cases h : p k <;>
      simp [h, foldl_if_add p c ks, List.filter_cons] <;> push_cast <;> ring

/-- C8: the heuristic intent parser sends the query
"advanced machine learning deep dive" to topic `ai-ml`, difficulty
`advanced`, and estimated duration 50. -/
theorem parseQueryIntent_scenarioA :
    (parseQueryIntent "advanced machine learning deep dive").topic = "ai-ml" ∧
    (parseQueryIntent "advanced machine learning deep dive").difficulty = "advanced" ∧
    (parseQueryIntent "advanced machine learning deep dive").estimatedDuration = 50 := by
  decide

/-- C9: for every query, the parsed intent's confidence lies in [0, 1]. -/
theorem parseQueryIntent_confidence_mem_unitInterval (q : String) :
    0 ≤ (parseQueryIntent q).confidence ∧ (parseQueryIntent q).confidence ≤ 1 := by
  have h : ∃ c : ℚ, (parseQueryIntent q).confidence = min c 1 ∧ 0 ≤ c := by
    refine ⟨_, rfl, ?_⟩
    dsimp only [parseQueryIntent]
    cases topicMappings.find? (fun kv => strIncludes (jsToLower q) kv.1) with
    | none => split_ifs <;> norm_num
    | some kv => split_ifs <;> norm_num
  obtain ⟨c, hc, hc0⟩ := h
  rw [hc]
  exact ⟨le_min hc0 zero_le_one, min_le_right _ _⟩

/-- C5: the relevance score is exactly the weighted sum the spec defines,
term by term; as a mathematical function of its three arguments it is
pure and deterministic by construction. -/
theorem calculateRelevanceScore_eq_spec (path : LearningPath)
    (intent : QueryIntent) (query : String) :
    calculateRelevanceScore path intent query = specRelevanceScore path intent query := by
  unfold calculateRelevanceScore specRelevanceScore
  dsimp only
  rw [foldl_if_add, foldl_if_add, foldl_if_add]
  split_ifs <;> ring

/-- C6: the relevance score factors through the abstract scoring factors,
and is monotone in each positive-weight factor: improving any one factor
(query/keyword/topic/difficulty hits, completion rate, node count, a
smaller duration difference) while the others are held constant never
decreases the score. -/
theorem calculateRelevanceScore_monotone :
    (∀ (path : LearningPath) (intent : QueryIntent) (query : String),
      calculateRelevanceScore path intent query = scoreOfFactors (factorsOf path intent query)) ∧
    ∀ f g : ScoreFactors,
      (f.titleQueryHit = true → g.titleQueryHit = true) →
      f.titleKeywordHits ≤ g.titleKeywordHits →
      (f.descQueryHit = true → g.descQueryHit = true) →
      f.descKeywordHits ≤ g.descKeywordHits →
      (f.topicHit = true → g.topicHit = true) →
      (f.difficultyHit = true → g.difficultyHit = true) →
      g.durationDiff ≤ f.durationDiff →
      f.completionRate ≤ g.completionRate →
      f.totalNodes ≤ g.totalNodes →
      f.tagKeywordHits ≤ g.tagKeywordHits →
      scoreOfFactors f ≤ scoreOfFactors g := by
  constructor
  · intro path intent query
    unfold calculateRelevanceScore scoreOfFactors factorsOf
    dsimp only
    rw [foldl_if_add, foldl_if_add, foldl_if_add]
    split_ifs <;> simp_all <;> ring
  · intro f g h1 h2 h3 h4 h5 h6 h7 h8 h9 h10
    have b1 : (if f.titleQueryHit then (10:ℚ) else 0) ≤ (if g.titleQueryHit then 10 else 0) := by
      cases hf : f.titleQueryHit <;> cases hg : g.titleQueryHit <;>
        simp_all <;> norm_num
    have b3 : (if f.descQueryHit then (5:ℚ) else 0) ≤ (if g.descQueryHit then 5 else 0) := by
      cases hf : f.descQueryHit <;> cases hg : g.descQueryHit <;>
        simp_all <;> norm_num
    have b5 : (if f.topicHit then (8:ℚ) else 0) ≤ (if g.topicHit then 8 else 0) := by
      cases hf : f.topicHit <;> cases hg : g.topicHit <;>
        simp_all <;> norm_num
    have b6 : (if f.difficultyHit then (3:ℚ) else 0) ≤ (if g.difficultyHit then 3 else 0) := by
      cases hf : f.difficultyHit <;> cases hg : g.difficultyHit <;>
        simp_all <;> norm_num
    have b2 : (f.titleKeywordHits : ℚ) ≤ (g.titleKeywordHits : ℚ) := by exact_mod_cast h2
    have b4 : (f.descKeywordHits : ℚ) ≤ (g.descKeywordHits : ℚ) := by exact_mod_cast h4
    have b10 : (f.tagKeywordHits : ℚ) ≤ (g.tagKeywordHits : ℚ) := by exact_mod_cast h10
    have b7 : max 0 (5 - f.durationDiff / 10) ≤ max 0 (5 - g.durationDiff / 10) :=
      max_le_max le_rfl (by linarith)
    have b9 : min (f.totalNodes / 10) 3 ≤ min (g.totalNodes / 10) 3 :=
      min_le_min (by linarith) le_rfl
    unfold scoreOfFactors
    linarith [b1, b2, b3, b4, b5, b6, b7, b9, b10, h8]

/-- C7: when the remote read of `intelligentSearch` fails (and the result
cache has no entry for the request), the search does not raise: it
returns the degraded result, whose path list is empty and whose
confidence is 0. -/
theorem intelligentSearch_degrades_on_failure
    (query : String) (filters : Option SearchFilters)
    (enhance : Option (Except String EnhancedQuery))
    (remoteRead : List SupaFilter → Except String (List LearningPath))
    (popularTopics : Except String (List String)) (e : String)
    (hfail : remoteRead (buildSearchFilters
        (applyEnhancement (parseQueryIntent query) enhance) filters) = .error e) :
    (intelligentSearch query filters none enhance remoteRead popularTopics).paths = [] ∧
    (intelligentSearch query filters none enhance remoteRead popularTopics).confidence = 0 := by
  unfold intelligentSearch
  dsimp only
  rw [hfail]
  exact ⟨rfl, rfl⟩

/-- Witness for C7: a concrete failing remote read degrades to the empty,
zero-confidence result. -/
theorem intelligentSearch_degrades_on_failure_witness :
    (intelligentSearch "machine learning" none none none
        (fun _ => .error "network down") (.ok [])).paths = [] ∧
    (intelligentSearch "machine learning" none none none
        (fun _ => .error "network down") (.ok [])).confidence = 0 :=
  intelligentSearch_degrades_on_failure "machine learning" none none
    (fun _ => .error "network down") (.ok []) "network down" rfl

/-- The parsed difficulty is always one of the three concrete levels. -/
theorem parseQueryIntent_difficulty_cases (q : String) :
    (parseQueryIntent q).difficulty = "advanced" ∨
    (parseQueryIntent q).difficulty = "intermediate" ∨
    (parseQueryIntent q).difficulty = "beginner" := by
  unfold parseQueryIntent
  dsimp only
  split_ifs <;> simp

/-- The difficulty equality filter is part of every built query whose
intent has a nonempty difficulty. -/
theorem mem_buildSearchFilters_difficulty (intent : QueryIntent)
    (filters : Option SearchFilters) (h : intent.difficulty ≠ "") :
    SupaFilter.eqDifficultyLevel intent.difficulty ∈ buildSearchFilters intent filters := by
  unfold buildSearchFilters
  dsimp only
  rcases filters with _ | f
  · split_ifs <;> simp_all [List.mem_append]
  · rcases hd : f.duration with _ | d <;> split_ifs <;> simp_all [List.mem_append]

/-- Every row the store returns satisfies every filter of the query. -/
theorem runStoreQuery_matches (textMatch : String → LearningPath → Bool)
    (store : List LearningPath) (fs : List SupaFilter) (p : LearningPath)
    (hp : p ∈ runStoreQuery textMatch store fs) (f : SupaFilter) (hf : f ∈ fs) :
    rowMatchesFilter textMatch f p = true := by
  unfold runStoreQuery at hp
  rw [List.mem_filter] at hp
  exact List.all_eq_true.mp hp.2 f hf

/-- C10: the parsed intent never has an empty difficulty, so the built
remote query always carries the difficulty equality filter; when the
query text contains no difficulty keyword the filter is
`difficulty_level = "beginner"`, so the store can only return
beginner-level paths. -/
theorem searchQuery_always_filters_difficulty (q : String)
    (filters : Option SearchFilters) :
    (parseQueryIntent q).difficulty ≠ "" ∧
    SupaFilter.eqDifficultyLevel (parseQueryIntent q).difficulty
      ∈ buildSearchFilters (parseQueryIntent q) filters ∧
    ((strIncludes (jsToLower q) "advanced" = false ∧
      strIncludes (jsToLower q) "expert" = false ∧
      strIncludes (jsToLower q) "intermediate" = false ∧
      strIncludes (jsToLower q) "medium" = false) →
      (parseQueryIntent q).difficulty = "beginner" ∧
      ∀ (textMatch : String → LearningPath → Bool) (store : List LearningPath)
        (p : LearningPath),
        p ∈ runStoreQuery textMatch store (buildSearchFilters (parseQueryIntent q) filters) →
        p.difficulty_level = "beginner") := by
  have hne : (parseQueryIntent q).difficulty ≠ "" := by
    rcases parseQueryIntent_difficulty_cases q with h | h | h <;> rw [h] <;> decide
  refine ⟨hne, mem_buildSearchFilters_difficulty _ _ hne, ?_⟩
  rintro ⟨ha, he, hi, hm⟩
  have hbeg : (parseQueryIntent q).difficulty = "beginner" := by
    unfold parseQueryIntent
    dsimp only
    rw [if_neg (by simp [ha, he]), if_neg (by simp [hi, hm])]
    split_ifs <;> rfl
  refine ⟨hbeg, ?_⟩
  intro textMatch store p hp
  have hmem := mem_buildSearchFilters_difficulty (parseQueryIntent q) filters hne
  rw [hbeg] at hmem
  have := runStoreQuery_matches textMatch store _ p hp _ hmem
  simpa [rowMatchesFilter] using this

/-- C2 counterexample: a cache entry read at age exactly equal to the TTL
is NOT served; the read misses and the refetched payload is returned. -/
theorem readThroughCache_at_exact_TTL_misses :
    readThroughCache (some ⟨(1 : ℤ), 0⟩) CACHE_DURATION (2 : ℤ) = (2, false) ∧
    readThroughCache (some ⟨(1 : ℤ), 0⟩) CACHE_DURATION (2 : ℤ) ≠ (1, true) := by
  decide

/-- C2 (amended): a read at age strictly below the TTL is a hit serving
the cached payload; a read at age equal to or above the TTL is a miss
that returns the refetched payload. -/
theorem readThroughCache_TTL_boundary {α : Type} (e : CacheEntry α) (now : ℤ)
    (fetched : α) :
    (now - e.timestamp < CACHE_DURATION →
      readThroughCache (some e) now fetched = (e.data, true)) ∧
    (CACHE_DURATION ≤ now - e.timestamp →
      readThroughCache (some e) now fetched = (fetched, false)) := by
  constructor
  · intro h
    unfold readThroughCache
    dsimp only
    rw [if_pos h]
  · intro h
    unfold readThroughCache
    dsimp only
    rw [if_neg (not_lt.mpr h)]

/-- C3: deleting a path that exists but is owned by someone else fails
with the not-authorized outcome (distinct from the not-found outcome), no
delete is issued to the store, and the store is unchanged. -/
theorem deletePath_notAuthorized (store : List LearningPath)
    (storeDelete : Except JsError Unit) (pathId userId : String)
    (path : LearningPath)
    (hfind : store.find? (fun p => p.id == pathId) = some path)
    (hown : path.created_by ≠ userId) :
    (deletePath store storeDelete pathId userId).result
        = .error (wrapDeleteError notAuthorizedMessage) ∧
    wrapDeleteError notAuthorizedMessage ≠ wrapDeleteError notFoundMessage ∧
    (deletePath store storeDelete pathId userId).deleteIssued = false ∧
    (deletePath store storeDelete pathId userId).store = store := by
  unfold deletePath
  rw [hfind]
  dsimp only
  rw [if_pos hown]
  exact ⟨rfl, by decide, rfl, rfl⟩

/-- Witness for C3: a concrete foreign requester is refused and the store
keeps the path. -/
theorem deletePath_notAuthorized_witness :
    (deletePath [samplePath] (.ok ()) "p1" "v2").result
        = .error (wrapDeleteError notAuthorizedMessage) ∧
    wrapDeleteError notAuthorizedMessage ≠ wrapDeleteError notFoundMessage ∧
    (deletePath [samplePath] (.ok ()) "p1" "v2").deleteIssued = false ∧
    (deletePath [samplePath] (.ok ()) "p1" "v2").store = [samplePath] :=
  deletePath_notAuthorized [samplePath] (.ok ()) "p1" "v2" samplePath (by decide)
    (by decide)

/-- C4 counterexample: a store-side delete failure is NOT propagated
verbatim; the caller sees the message with the operation context
prefixed. -/
theorem deletePath_storeError_not_verbatim :
    (deletePath [samplePath] (.error ⟨"permission denied", true⟩) "p1" "u1").result
        = .error "Failed to delete learning path: permission denied" ∧
    ("Failed to delete learning path: permission denied" : String) ≠ "permission denied" := by
  decide

/-- C4 (amended): when the store's delete fails after the path is found
and ownership verified, the caller sees the store's error re-thrown with
the context prefix "Failed to delete learning path: " prepended to the
store error's message (or to "Unknown deletion error" when the thrown
value is not an Error instance); the store is unchanged. -/
theorem deletePath_storeError_wrapped (store : List LearningPath) (e : JsError)
    (pathId userId : String) (path : LearningPath)
    (hfind : store.find? (fun p => p.id == pathId) = some path)
    (hown : path.created_by = userId) :
    (deletePath store (.error e) pathId userId).result
        = .error ("Failed to delete learning path: " ++ jsErrorMessage e) ∧
    (deletePath store (.error e) pathId userId).store = store := by
  unfold deletePath
  rw [hfind]
  dsimp only
  rw [if_neg (not_not_intro hown)]
  exact ⟨rfl, rfl⟩

/-- Resource nodes carry consecutive order indices starting at the
running counter. -/
theorem nodesFromResources_order (m : TopicModule) :
    ∀ (rs : List LearningResource) (k : ℕ),
      (nodesFromResources m rs k).map (fun n => n.order_index)
          = List.range' k rs.length ∧
      (nodesFromResources m rs k).length = rs.length
  | [], k => by simp [nodesFromResources]
  | r :: rs, k => by
    have ih := nodesFromResources_order m rs (k + 1)
    simp [nodesFromResources, resourceNode, ih.1, ih.2, List.range'_succ]

/-- One module's node chunk carries consecutive order indices from the
running counter, the counter advances by the chunk length, and the chunk
is at least as long as the module's resource list. -/
theorem moduleNodes_order (m : TopicModule) (md : ℚ) (k : ℕ) :
    ∃ c, (moduleNodes m md k).1.map (fun n => n.order_index) = List.range' k c ∧
      (moduleNodes m md k).2 = k + c ∧
      (moduleNodes m md k).1.length = c ∧
      m.resources.length ≤ c := by
  have hbase := nodesFromResources_order m m.resources k
  unfold moduleNodes
  dsimp only
  by_cases hE : m.exercises.length > 0
  · by_cases hA : m.assessments.length > 0
    · refine ⟨m.resources.length + 1 + 1, ?_, ?_, ?_, ?_⟩ <;>
        simp [hE, hA, hbase.1, hbase.2, exerciseNode, assessmentNode,
          List.range'_1_concat, Nat.add_assoc] <;> omega
    · refine ⟨m.resources.length + 1, ?_, ?_, ?_, ?_⟩ <;>
        simp [hE, hA, hbase.1, hbase.2, exerciseNode,
          List.range'_1_concat, Nat.add_assoc] <;> omega
  · by_cases hA : m.assessments.length > 0
    · refine ⟨m.resources.length + 1, ?_, ?_, ?_, ?_⟩ <;>
        simp [hE, hA, hbase.1, hbase.2, assessmentNode,
          List.range'_1_concat, Nat.add_assoc] <;> omega
    · refine ⟨m.resources.length, ?_, ?_, ?_, ?_⟩ <;>
        simp [hE, hA, hbase.1, hbase.2]

/-- The full module loop produces consecutive order indices from the
starting counter. -/
theorem structuredNodes_order (duration : ℚ) (total : ℕ) :
    ∀ (ms : List TopicModule) (k : ℕ),
      (structuredNodes duration total ms k).map (fun n => n.order_index)
        = List.range' k (structuredNodes duration total ms k).length
  | [], k => by simp [structuredNodes]
  | m :: ms, k => by
    obtain ⟨c, hmap, hctr, hlen, -⟩ :=
      moduleNodes_order m (jsCeil (duration / (total : ℚ))) k
    have ih := structuredNodes_order duration total ms
      ((moduleNodes m (jsCeil (duration / (total : ℚ))) k).2)
    unfold structuredNodes
    dsimp only
    rw [List.map_append, hmap, ih, hctr, List.length_append, hlen]
    rw [List.range'_append_1, Nat.add_comm]

/-- The module loop yields at least one node when the first module has a
resource. -/
theorem structuredNodes_ne_nil (duration : ℚ) (total : ℕ) (m : TopicModule)
    (ms : List TopicModule) (k : ℕ) (h : m.resources ≠ []) :
    structuredNodes duration total (m :: ms) k ≠ [] := by
  obtain ⟨c, -, -, hlen, hge⟩ :=
    moduleNodes_order m (jsCeil (duration / (total : ℚ))) k
  intro hnil
  unfold structuredNodes at hnil
  dsimp only at hnil
  rcases List.append_eq_nil.mp hnil with ⟨h1, -⟩
  have : m.resources.length = 0 := by
    have := h1 ▸ hlen
    simp at this
    omega
  exact h (List.length_eq_zero.mp this)

/-- Every selected module comes from the topic's module list. -/
theorem selectModules_subset (modules : List TopicModule) (difficulty : String) :
    ∀ x ∈ selectModulesByDifficulty modules difficulty, x ∈ modules := by
  unfold selectModulesByDifficulty
  split_ifs <;> intro x hx
  · exact List.mem_of_mem_take hx
  · exact List.mem_of_mem_take hx
  · exact hx

/-- Difficulty selection keeps a nonempty module list nonempty. -/
theorem selectModules_ne_nil (modules : List TopicModule) (difficulty : String)
    (h : modules ≠ []) : selectModulesByDifficulty modules difficulty ≠ [] := by
  rcases modules with _ | ⟨m, ms⟩
  · exact absurd rfl h
  · unfold selectModulesByDifficulty
    split_ifs <;> simp [Nat.succ_min_succ]

/-- Every topic of the knowledge base has at least one module, and every
module has at least one curated resource. -/
theorem topicDatabase_wf :
    ∀ kv ∈ topicDatabase, kv.2.modules ≠ [] ∧ ∀ m ∈ kv.2.modules, m.resources ≠ [] := by
  decide

/-- A structured path over a well-formed topic satisfies the node
invariant. -/
theorem generateStructuredPath_ok (topic : TopicStructure) (topicKey : String)
    (request : GeneratePathRequest) (h1 : topic.modules ≠ [])
    (h2 : ∀ m ∈ topic.modules, m.resources ≠ []) :
    pathOrderOk (generateStructuredPath topic topicKey request) := by
  unfold generateStructuredPath pathOrderOk
  dsimp only
  have hsel := selectModules_ne_nil topic.modules (jsOrStrOpt request.difficulty "beginner") h1
  obtain ⟨m, ms, hms⟩ := List.exists_cons_of_ne_nil hsel
  rw [hms]
  constructor
  · apply structuredNodes_ne_nil
    apply h2
    apply selectModules_subset topic.modules (jsOrStrOpt request.difficulty "beginner")
    rw [hms]
    exact List.mem_cons_self m ms
  · exact structuredNodes_order _ _ _ _

/-- Custom-path nodes carry order indices `index + 1` from the running
index. -/
theorem customNodesFrom_order :
    ∀ (ms : List CustomModule) (md : ℚ) (i : ℕ),
      (customNodesFrom ms md i).map (fun n => n.order_index)
          = List.range' (i + 1) ms.length ∧
      (customNodesFrom ms md i).length = ms.length
  | [], md, i => by simp [customNodesFrom]
  | m :: ms, md, i => by
    have ih := customNodesFrom_order ms md (i + 1)
    simp [customNodesFrom, ih.1, ih.2, List.range'_succ]

/-- The custom 4-node path satisfies the node invariant. -/
theorem generateCustomPath_ok (request : GeneratePathRequest) (category : String) :
    pathOrderOk (generateCustomPath request category) := by
  unfold generateCustomPath pathOrderOk
  dsimp only
  constructor
  · simp [generateCustomModulesWithResources, customNodesFrom]
  · have h := customNodesFrom_order
      (generateCustomModulesWithResources (extractMainTopic request.query)
        (jsOrStrOpt request.difficulty "beginner"))
      (jsCeil (jsOrNum request.duration 20 /
        ((generateCustomModulesWithResources (extractMainTopic request.query)
          (jsOrStrOpt request.difficulty "beginner")).length : ℚ))) 0
    rw [h.1, h.2]

/-- The fallback 3-node path satisfies the node invariant. -/
theorem generateFallbackPath_ok (request : GeneratePathRequest) :
    pathOrderOk (generateFallbackPath request) := by
  unfold generateFallbackPath pathOrderOk
  constructor <;> simp [List.range']

/-- A detected topic always comes from the knowledge base. -/
theorem detectTopic_detected (q : String) :
    (detectTopic q).detectedTopic = none ∨
    ∃ kv ∈ topicDatabase, (detectTopic q).detectedTopic = some kv.2 := by
  unfold detectTopic
  dsimp only
  cases hfind : topicDatabase.find? (fun kv => strIncludes (jsToLower q) kv.1) with
  | some kv =>
    right
    exact ⟨kv, List.mem_of_find?_eq_some hfind, rfl⟩
  | none =>
    cases hkw : keywordMap.find? (fun tk =>
        tk.2.any (fun kw => strIncludes (jsToLower q) kw) &&
        (listLookup topicDatabase tk.1).isSome) with
    | none => left; rfl
    | some tk =>
      dsimp only
      cases hlook : listLookup topicDatabase tk.1 with
      | none => left; rfl
      | some topic =>
        right
        have hlook' := hlook
        unfold listLookup at hlook'
        obtain ⟨kv, hkv, hkv2⟩ := Option.map_eq_some'.mp hlook'
        refine ⟨kv, List.mem_of_find?_eq_some hkv, ?_⟩
        simp [hkv2]

/-- `generatePath` always satisfies the node invariant. -/
theorem generatePath_ok (request : GeneratePathRequest) :
    pathOrderOk (generatePath request) := by
  unfold generatePath
  dsimp only
  rcases detectTopic_detected request.query with hdet | ⟨kv, hkv, hdet⟩
  · rw [hdet]
    exact generateCustomPath_ok request _
  · rw [hdet]
    split_ifs with hconf
    · obtain ⟨hmod, hres⟩ := topicDatabase_wf kv hkv
      exact generateStructuredPath_ok kv.2 _ request hmod hres
    · exact generateCustomPath_ok request _

/-- C1: every generation request yields a path document with at least one
node whose order indices are exactly 1, 2, ..., n in list order — via
`generatePath` (template match or custom), via the custom 4-node
generator for any category, and via the fallback generator. -/
theorem generatePath_nodes_one_based_contiguous (request : GeneratePathRequest)
    (category : String) :
    pathOrderOk (generatePath request) ∧
    pathOrderOk (generateCustomPath request category) ∧
    pathOrderOk (generateFallbackPath request) :=
  ⟨generatePath_ok request, generateCustomPath_ok request category,
    generateFallbackPath_ok request⟩

/-- Witness for C4 (amended): a concrete store failure reaches the owner
with the context prefix. -/
theorem deletePath_storeError_wrapped_witness :
    (deletePath [samplePath] (.error ⟨"boom", true⟩) "p1" "u1").result
        = .error ("Failed to delete learning path: " ++ jsErrorMessage ⟨"boom", true⟩) ∧
    (deletePath [samplePath] (.error ⟨"boom", true⟩) "p1" "u1").store = [samplePath] :=
  deletePath_storeError_wrapped [samplePath] ⟨"boom", true⟩ "p1" "u1" samplePath
    (by decide) rfl

end MicroGuide
